import Mathlib

/-!
Verification of the terrain subsystem of the `lego-game` repository
(src/terrain.rs, src/utils.rs). Machine floats (`f32`) are modelled as
exact rationals; the positive-infinity sentinel used for the hidden
cursor is modelled by an explicit extended-value type.
-/

namespace LegoGame

/-- A 2D vector of rationals, modelling `glam::Vec2` with finite components. -/
structure Vec2 where
  x : ℚ
  y : ℚ
deriving DecidableEq

/-- A 3D vector of rationals, modelling `glam::Vec3`. -/
structure Vec3 where
  x : ℚ
  y : ℚ
  z : ℚ
deriving DecidableEq

/-- The xz swizzle of a `Vec3` (`glam::Vec3Swizzles::xz`). -/
def Vec3.xz (v : Vec3) : Vec2 := ⟨v.x, v.z⟩

/-- An `f32` value as used by the cursor: either a finite rational or
positive infinity (`f32::INFINITY`). Only the float operations this
program performs on possibly-infinite values are modelled (finite
arithmetic, `+inf - finite`, `+inf / positive`, ordered comparison). -/
inductive Flt where
  | fin (q : ℚ)
  | inf
deriving DecidableEq

/-- Float subtraction on cursor values: finite−finite is exact, and
`+inf − finite = +inf` as in IEEE. (The program never subtracts an
infinite value from a finite one.) -/
def Flt.sub : Flt → Flt → Flt
  | .fin a, .fin b => .fin (a - b)
  | _, _ => .inf

/-- Float division of a cursor value by a scalar: `+inf / s = +inf` as in
IEEE for positive `s` (the program only divides by the positive terrain
size). -/
def Flt.divQ : Flt → ℚ → Flt
  | .fin a, s => .fin (a / s)
  | .inf, _ => .inf

/-- Float `<=` comparison including the infinity sentinel (IEEE order). -/
def Flt.fle : Flt → Flt → Bool
  | .fin a, .fin b => a ≤ b
  | .fin _, .inf => true
  | .inf, .fin _ => false
  | .inf, .inf => true

/-- A 2D float vector that may hold the infinity sentinel (the cursor). -/
structure Vec2F where
  x : Flt
  y : Flt
deriving DecidableEq

/-- Componentwise subtraction of a finite `Vec2` from a cursor vector. -/
def Vec2F.subV (a : Vec2F) (b : Vec2) : Vec2F := ⟨a.x.sub (.fin b.x), a.y.sub (.fin b.y)⟩

/-- Componentwise division of a cursor vector by a scalar. -/
def Vec2F.divS (a : Vec2F) (s : ℚ) : Vec2F := ⟨a.x.divQ s, a.y.divQ s⟩

/-- From src/utils.rs: `vec2_infinity` returns a `Vec2` with both
components `f32::INFINITY` (the hidden-cursor sentinel). -/
def vec2_infinity : Vec2F := ⟨.inf, .inf⟩

/-- Componentwise clamp of a rational into `[lo, hi]`, modelling
`glam`'s scalar clamp `self.max(lo).min(hi)`. -/
def clampF (v lo hi : ℚ) : ℚ := min (max v lo) hi

/-- Modelled from the spec: the `crate::ray` module is not under src/.
Spec §6: the core consumes a `Ray{origin, direction}` value. -/
structure Ray where
  origin : Vec3
  direction : Vec3

/-- Modelled from the spec: axis-aligned bounding box from `crate::ray`
(not under src/), built from its min and max corners. -/
structure AABB where
  min : Vec3
  max : Vec3
deriving DecidableEq

/-- Modelled from the spec: the near/far parametric hit distances
returned by the slab-method intersection (spec §4.4); the source reads
the far distance as `hit.t_max` (src/terrain.rs:530). -/
structure RayHit where
  t_min : ℚ
  t_max : ℚ
deriving DecidableEq

/-- Modelled from the spec: evaluating the ray at a parametric distance
(`ray.get_point_at(t)`, from `crate::ray`, not under src/): the point
`origin + t * direction`. -/
def Ray.get_point_at (r : Ray) (t : ℚ) : Vec3 :=
  ⟨r.origin.x + t * r.direction.x,
   r.origin.y + t * r.direction.y,
   r.origin.z + t * r.direction.z⟩

/-- One axis of the slab method: `none` means the ray misses the slab
outright; `some none` means the axis is unconstraining (zero direction
component with the origin inside the slab); `some (some (tl, th))` is
the parametric interval in which the ray is inside this slab. -/
def axisSlab (o d lo hi : ℚ) : Option (Option (ℚ × ℚ)) :=
  if d = 0 then
    if lo ≤ o ∧ o ≤ hi then some none else none
  else
    some (some (min ((lo - o) / d) ((hi - o) / d), max ((lo - o) / d) ((hi - o) / d)))

/-- Meet of two optional parametric intervals (`none` = unconstrained). -/
def interMeet : Option (ℚ × ℚ) → Option (ℚ × ℚ) → Option (ℚ × ℚ)
  | none, b => b
  | some a, none => some a
  | some (l1, h1), some (l2, h2) => some (max l1 l2, min h1 h2)

/-- Modelled from the spec: `hitsAABB(ray, box)` from `crate::ray` (not
under src/), spec §4.4: "standard slab-method ray–box intersection,
returns near/far hit parametric distances or none if disjoint". A box
entirely behind the ray origin (negative far distance) is a miss, and a
degenerate all-zero direction yields no finite far distance and is
treated as a miss. -/
def Ray.hits_aabb (r : Ray) (b : AABB) : Option RayHit :=
  match axisSlab r.origin.x r.direction.x b.min.x b.max.x with
  | none => none
  | some ix =>
    match axisSlab r.origin.y r.direction.y b.min.y b.max.y with
    | none => none
    | some iy =>
      match axisSlab r.origin.z r.direction.z b.min.z b.max.z with
      | none => none
      | some iz =>
        match interMeet (interMeet ix iy) iz with
        | none => none
        | some (tl, th) => if tl ≤ th ∧ 0 ≤ th then some ⟨tl, th⟩ else none

/-- A decoded image as the `image` crate delivers it to
`Heightmap::new` after `into_luma16()`: dimensions plus the raw 16-bit
luma samples in row-major order (the crate guarantees one sample per
pixel). -/
structure Image where
  width : ℕ
  height : ℕ
  pixels : List ℕ
  hpix : pixels.length = width * height

/-- The CPU-observable state of a `Heightmap` (src/terrain.rs:17): the
side length of the square R16 texture and its 16-bit texel contents
(the GL texture is allocated `texture_size × texture_size` and filled
from exactly that many samples; GL handles and the sculpt shader object
are elided). -/
structure Heightmap where
  texture_size : ℕ
  pixels : List ℕ
  hsize : pixels.length = texture_size * texture_size

/-- The distinct fatal assertions in src/terrain.rs construction paths. -/
inductive PanicReason where
  | bothSources
  | neitherSource
  | notSquare
  | unsupportedSize
  | centerNotOrigin
deriving DecidableEq

/-- Outcome of `Heightmap` construction: success, a propagated
`Err` from `image::open` (the recoverable load error), or a fatal
assertion/panic. -/
inductive HmResult where
  | ok (h : Heightmap)
  | loadError
  | panicked (r : PanicReason)

/-- The size check of src/terrain.rs:43-46: side length 1024, 2048 or 4096. -/
def supportedSize (s : ℕ) : Bool := s == 1024 || s == 2048 || s == 4096

/-- From src/terrain.rs:35-53, `Heightmap::new` with the debug
assertions active (debug-build semantics). The external `image::open`
call is modelled by the `path` argument carrying its outcome: `none` =
no path given; `some none` = path given but the open failed (the `?`
propagates a load error); `some (some img)` = path given and the image
decoded as `img`. The flat branch builds `size * size` zero samples
(`vec![0u16; size * size]`). GL texture/framebuffer setup and shader
compilation are elided. -/
def Heightmap.new (path : Option (Option Image)) (texture_size : Option ℕ) : HmResult :=
  if path.isSome && texture_size.isSome then .panicked .bothSources
  else if path.isNone && texture_size.isNone then .panicked .neitherSource
  else
    match path, texture_size with
    | some none, _ => .loadError
    | some (some img), _ =>
      if hsq : img.width = img.height then
        if supportedSize img.width then
          .ok ⟨img.width, img.pixels, by rw [img.hpix, hsq]⟩
        else .panicked .unsupportedSize
      else .panicked .notSquare
    | none, some s => .ok ⟨s, List.replicate (s * s) 0, by simp⟩
    | none, none => .panicked .neitherSource

/-- From src/terrain.rs:27-29: `Heightmap::flat(texture_size)`. -/
def Heightmap.flat (texture_size : ℕ) : HmResult :=
  Heightmap.new none (some texture_size)

/-- From src/terrain.rs:31-33: `Heightmap::from_image(path)`, with the
load outcome of the given path passed in. -/
def Heightmap.from_image (loaded : Option Image) : HmResult :=
  Heightmap.new (some loaded) none

/-- From src/terrain.rs:160-164: the brush; its GPU stamp texture is
elided, keeping the world-space `size` consumed by the sculpt math. -/
structure Brush where
  size : ℚ
deriving DecidableEq

/-- Modelled from the spec: the effect of the sculpt pass on one 16-bit
texel. The fragment shader (shaders/editor/terrain/heightmap.frag) is
not under src/; per spec §4.1 the pass blends a brush contribution
scaled linearly by `delta_time` additively (raise) or subtractively
(lower) into the R16-normalized texel, which the normalized format
clamps to `[0, 1]` and quantizes back to 16 bits. -/
def sculptTexel (old : ℕ) (src : ℚ) (raise : Bool) : ℕ :=
  let oldN : ℚ := (old : ℚ) / 65535
  let newN : ℚ := if raise then oldN + src else oldN - src
  (⌊min 1 (max 0 newN) * 65535 + 1 / 2⌋).toNat

/-- Map over a list with the element index, used to model the per-texel
rasterization of the sculpt pass. -/
def mapWithIndex (f : ℕ → ℕ → ℕ) : ℕ → List ℕ → List ℕ
  | _, [] => []
  | i, a :: as => f i a :: mapWithIndex f (i + 1) as

/-- From src/terrain.rs:112-157, `Heightmap::draw_on_heightmap`: sets
the `cursor`, `brush_size = brush.size / terrain_size` and `delta_time`
uniforms and draws the brush over the height texture. The GPU
rasterization is modelled from the spec by `stamp`, the nonnegative
brush-stamp contribution sampled for a texel index given the cursor and
brush-size uniforms; each texel is updated by `sculptTexel` with that
contribution scaled by `delta_time`. -/
def Heightmap.draw_on_heightmap (h : Heightmap) (cursor : Vec2F) (brush : Brush)
    (terrain_size : ℚ) (stamp : Vec2F → ℚ → ℕ → ℚ) (delta_time : ℚ) (raise : Bool) :
    List ℕ :=
  mapWithIndex
    (fun i old => sculptTexel old (stamp cursor (brush.size / terrain_size) i * delta_time) raise)
    0 h.pixels

/-- The debug assertions at the top of `draw_on_heightmap`
(src/terrain.rs:121-122): `cursor.x <= 1.0 && cursor.x >= 0.0` and the
same for `cursor.y`. -/
def drawAsserts (cursor : Vec2F) : Bool :=
  (cursor.x.fle (.fin 1) && (Flt.fin 0).fle cursor.x) &&
  (cursor.y.fle (.fin 1) && (Flt.fin 0).fle cursor.y)

/-- The CPU-observable state of a `Terrain` (src/terrain.rs:215-240):
AABB, heightmap, cursor, brush, tessellation level and the main
parameters; GL handles, shader programs and the shadow map are elided. -/
structure Terrain where
  aabb : AABB
  heightmap : Heightmap
  cursor : Vec2F
  brush : Brush
  tess_level : ℚ
  center : Vec2
  max_height : ℚ
  num_patches : ℤ
  patch_size : ℚ

/-- Outcome of `Terrain::new`. -/
inductive TerrainResult where
  | ok (t : Terrain)
  | loadError
  | panicked (r : PanicReason)

/-- From src/terrain.rs:253-263 and 400-424: the parameters
`Terrain::new` fixes (max height 200, 64 patches of size 16, the AABB
derived from `patch_size * num_patches` and `max_height`), the hidden
initial cursor, the brush of world size 100.0 and `tess_level` 11.0,
assembled into the Terrain value around the given heightmap. Shader
compilation, GL resources and the checkerboard/shadow-map setup are
elided. -/
def terrainInit (center : Vec2) (hm : Heightmap) : Terrain :=
  let max_height : ℚ := 200
  let num_patches : ℤ := 64
  let patch_size : ℚ := 16
  let terrain_size : ℚ := patch_size * (num_patches : ℚ)
  let half_size := terrain_size / 2
  let aabb : AABB := ⟨⟨-half_size, 0, -half_size⟩, ⟨half_size, max_height, half_size⟩⟩
  ⟨aabb, hm, vec2_infinity, ⟨100⟩, 11, center, max_height, num_patches, patch_size⟩

/-- From src/terrain.rs:248-425, `Terrain::new(center, start_flat,
heightmap_path)`: asserts the center is the origin
(`assert_eq!(center, Vec2::new(0.0, 0.0))`), builds the heightmap (flat
of size 1024 when `start_flat` is set, otherwise from the image whose
load outcome is `loaded`), propagates failures, and on success
assembles the terrain with its fixed parameters via `terrainInit`. -/
def Terrain.new (center : Vec2) (start_flat : Bool) (loaded : Option Image) : TerrainResult :=
  if center = ⟨0, 0⟩ then
    match (if start_flat then Heightmap.flat 1024 else Heightmap.from_image loaded) with
    | .ok hm => .ok (terrainInit center hm)
    | .loadError => .loadError
    | .panicked r => .panicked r
  else .panicked .centerNotOrigin

/-- Byte serialization of the 16-bit samples as `gl::GetTextureImage`
delivers them in the readback buffer: two bytes per sample
(native-endian, low byte first). -/
def bytesOfSamples : List ℕ → List ℕ
  | [] => []
  | p :: ps => p % 256 :: p / 256 :: bytesOfSamples ps

/-- From src/terrain.rs:499-514, `Terrain::get_heightmap_pixels`: reads
the full height texture back into a byte buffer of size
`texture_size * texture_size * 2` and returns it with the side length. -/
def Terrain.get_heightmap_pixels (t : Terrain) : List ℕ × ℕ :=
  (bytesOfSamples t.heightmap.pixels, t.heightmap.texture_size)

/-- From src/terrain.rs:516-518: `Terrain::size` is the AABB extent in x. -/
def Terrain.size (t : Terrain) : ℚ := t.aabb.max.x - t.aabb.min.x

/-- The argument tuple `Terrain::shape_terrain` passes to
`Heightmap::draw_on_heightmap` (src/terrain.rs:523-524). -/
structure DrawCall where
  cursor : Vec2F
  brush : Brush
  terrain_size : ℚ
  delta_time : ℚ
  raise : Bool
deriving DecidableEq

/-- From src/terrain.rs:520-525, `Terrain::shape_terrain`: normalizes
the world-space cursor by `(cursor - aabb.min.xz()) / terrain_size` and
delegates to `draw_on_heightmap`; the delegated call is returned as the
observed effect. -/
def Terrain.shape_terrain (t : Terrain) (delta_time : ℚ) (raise : Bool) : DrawCall :=
  let terrain_size := t.size
  ⟨(t.cursor.subV t.aabb.min.xz).divS terrain_size, t.brush, terrain_size, delta_time, raise⟩

/-- From src/terrain.rs:527-538, `Terrain::intersect_with_ray`:
intersects with the AABB, evaluates the ray at the far parameter, and
rejects the hit unless `point.y - aabb.min.y <= 0.001`. -/
def Terrain.intersect_with_ray (t : Terrain) (ray : Ray) : Option Vec3 :=
  match ray.hits_aabb t.aabb with
  | none => none
  | some hit =>
    let point := ray.get_point_at hit.t_max
    if point.y - t.aabb.min.y > 1 / 1000 then none else some point

/-- From src/terrain.rs:550-552, `Terrain::hide_cursor`. -/
def Terrain.hide_cursor (t : Terrain) : Terrain :=
  { t with cursor := vec2_infinity }

/-- From src/terrain.rs:540-548, `Terrain::move_cursor`: on a hit,
stores the hit's xz clamped into the AABB's xz bounds and returns true;
on a miss, hides the cursor and returns false. -/
def Terrain.move_cursor (t : Terrain) (ray : Ray) : Bool × Terrain :=
  match t.intersect_with_ray ray with
  | some point =>
    (true, { t with cursor := ⟨.fin (clampF point.x t.aabb.min.x t.aabb.max.x),
                               .fin (clampF point.z t.aabb.min.z t.aabb.max.z)⟩ })
  | none => (false, t.hide_cursor)

section ConcreteSamples

/-- A 1024×512 (non-square) decoded image used as a concrete test input. -/
def badImage : Image := ⟨1024, 512, List.replicate (1024 * 512) 0, by rw [List.length_replicate]⟩

/-- A square decoded image of the supported side 1024. -/
def img1024 : Image := ⟨1024, 1024, List.replicate (1024 * 1024) 0, by rw [List.length_replicate]⟩

/-- The AABB `Terrain::new` computes: min (-512, 0, -512), max (512, 200, 512). -/
def stdAABB : AABB := ⟨⟨-512, 0, -512⟩, ⟨512, 200, 512⟩⟩

/-- A small concrete height field (side 2, samples 0, 7, 65535, 123). -/
def h4 : Heightmap := ⟨2, [0, 7, 65535, 123], by rfl⟩

/-- A concrete terrain with the standard AABB and a finite cursor. -/
def t0 : Terrain := ⟨stdAABB, h4, ⟨.fin 3, .fin 5⟩, ⟨100⟩, 11, ⟨0, 0⟩, 200, 64, 16⟩

/-- A ray shot straight down into the terrain box from above its middle. -/
def rDown : Ray := ⟨⟨0, 300, 0⟩, ⟨0, -1, 0⟩⟩

end ConcreteSamples

/-- CLAIM C3 (counterexample): feeding `createFromImage` a decoded
1024×512 (non-square) image makes construction die on the
`assert_eq!(width, height)` panic (src/terrain.rs:42), not with the
recoverable `LoadError` the claim names. -/
theorem c3_cex_nonsquare_panics :
    Heightmap.from_image (some badImage) = .panicked .notSquare ∧
      Heightmap.from_image (some badImage) ≠ .loadError :=
  ⟨rfl, fun h => HmResult.noConfusion h⟩

/-- Unfolding of `Heightmap::new` on a successfully decoded image: the
precondition assertions pass and control reaches the two validation
assertions. -/
theorem new_some_some_eq (img : Image) :
    Heightmap.new (some (some img)) none =
      if hsq : img.width = img.height then
        if supportedSize img.width then
          HmResult.ok ⟨img.width, img.pixels, by rw [img.hpix, hsq]⟩
        else .panicked .unsupportedSize
      else .panicked .notSquare := rfl

/-- CLAIM C3 (amended): for every load outcome, `createFromImage` fails
whenever the asset is missing, non-square, or of unsupported size, and
succeeds otherwise — but only the missing/unreadable asset surfaces as
the recoverable `LoadError`; a non-square or unsupported-size image is
a fatal assertion panic. On success nothing is altered: the height
field is exactly the image's side and samples. -/
theorem c3_from_image_cases (loaded : Option Image) :
    (Heightmap.from_image loaded = .loadError ↔ loaded = none) ∧
    (∀ img, loaded = some img →
      (img.width ≠ img.height → Heightmap.from_image loaded = .panicked .notSquare) ∧
      (img.width = img.height → supportedSize img.width = false →
        Heightmap.from_image loaded = .panicked .unsupportedSize) ∧
      (img.width = img.height → supportedSize img.width = true →
        ∃ h, Heightmap.from_image loaded = .ok h ∧
          h.texture_size = img.width ∧ h.pixels = img.pixels)) := by
  cases loaded with
  | none =>
    refine ⟨by constructor <;> intro h <;> rfl, ?_⟩
    intro img him
    exact Option.noConfusion him
  | some img =>
    constructor
    · show Heightmap.new (some (some img)) none = .loadError ↔ _
      rw [new_some_some_eq]
      constructor
      · intro h
        split at h
        · split at h
          · exact HmResult.noConfusion h
          · exact HmResult.noConfusion h
        · exact HmResult.noConfusion h
      · intro h
        exact Option.noConfusion h
    · intro i hi
      obtain rfl : img = i := by injection hi
      refine ⟨?_, ?_, ?_⟩
      · intro hne
        show Heightmap.new (some (some img)) none = _
        rw [new_some_some_eq, dif_neg hne]
      · intro hsq hunsup
        show Heightmap.new (some (some img)) none = _
        rw [new_some_some_eq, dif_pos hsq, if_neg (by rw [hunsup]; exact Bool.false_ne_true)]
      · intro hsq hsup
        refine ⟨⟨img.width, img.pixels, by rw [img.hpix, hsq]⟩, ?_, rfl, rfl⟩
        show Heightmap.new (some (some img)) none = _
        rw [new_some_some_eq, dif_pos hsq, if_pos hsup]

/-- CLAIM C3 witness: at a concrete 1024×1024 image, `createFromImage`
succeeds with that side length and those samples. -/
theorem c3_witness :
    ((some img1024 : Option Image) = some img1024) ∧
      (img1024.width = img1024.height) ∧ (supportedSize img1024.width = true) ∧
      ∃ h, Heightmap.from_image (some img1024) = .ok h ∧
        h.texture_size = img1024.width ∧ h.pixels = img1024.pixels :=
  ⟨rfl, rfl, rfl,
    (((c3_from_image_cases (some img1024)).2 img1024 rfl).2.2 rfl rfl)⟩

/-- CLAIM C4 (counterexample): `createFlat(100)` succeeds even though
100 is not a supported size — the `{1024, 2048, 4096}` check of
src/terrain.rs:43-46 sits only on the image path, so `Heightmap::flat`
performs no size validation at all. -/
theorem c4_cex_flat_100_succeeds :
    supportedSize 100 = false ∧ ∃ h, Heightmap.flat 100 = .ok h :=
  ⟨rfl, ⟨⟨100, List.replicate (100 * 100) 0, by rw [List.length_replicate]⟩, rfl⟩⟩

/-- CLAIM C4 (amended): `createFlat` succeeds for every size argument,
supported or not, constructing a height field of exactly that side; the
supported-size restriction is enforced only by `createFromImage`. -/
theorem c4_flat_never_fails (s : ℕ) :
    ∃ h, Heightmap.flat s = .ok h ∧ h.texture_size = s :=
  ⟨⟨s, List.replicate (s * s) 0, by simp⟩, rfl, rfl⟩

/-- CLAIM C5: for every supported size S, `createFlat(S)` yields a
height field of side S whose S×S texels are all zero. -/
theorem c5_flat_zero_field (s : ℕ) (_hs : s = 1024 ∨ s = 2048 ∨ s = 4096) :
    ∃ h, Heightmap.flat s = .ok h ∧ h.texture_size = s ∧
      h.pixels.length = s * s ∧ ∀ p ∈ h.pixels, p = 0 := by
  refine ⟨⟨s, List.replicate (s * s) 0, by simp⟩, rfl, rfl, by simp, ?_⟩
  intro p hp
  exact List.eq_of_mem_replicate hp

/-- CLAIM C5 witness at the supported size 1024. -/
theorem c5_witness :
    (1024 = 1024 ∨ 1024 = 2048 ∨ 1024 = 4096) ∧
      ∃ h, Heightmap.flat 1024 = .ok h ∧ h.texture_size = 1024 ∧
        h.pixels.length = 1024 * 1024 ∧ ∀ p ∈ h.pixels, p = 0 :=
  ⟨Or.inl rfl, c5_flat_zero_field 1024 (Or.inl rfl)⟩

/-- Each 16-bit sample contributes exactly two bytes to the readback. -/
theorem bytesOfSamples_length (l : List ℕ) : (bytesOfSamples l).length = 2 * l.length := by
  induction l with
  | nil => rfl
  | cons p ps ih => simp [bytesOfSamples, ih]; omega

/-- CLAIM C6: `getHeightmapPixels` returns a byte buffer of length
`sideLength² × 2`, where the returned side length is the height field's
side length. -/
theorem c6_readback_length (t : Terrain) :
    (t.get_heightmap_pixels).1.length =
        (t.get_heightmap_pixels).2 * (t.get_heightmap_pixels).2 * 2 ∧
      (t.get_heightmap_pixels).2 = t.heightmap.texture_size := by
  refine ⟨?_, rfl⟩
  show (bytesOfSamples t.heightmap.pixels).length =
    t.heightmap.texture_size * t.heightmap.texture_size * 2
  rw [bytesOfSamples_length, t.heightmap.hsize]
  ring

/-- CLAIM C9: the `Heightmap` constructor's two debug assertions
(src/terrain.rs:36-37) fire exactly on the both-sources and
neither-source calls, and under the exactly-one precondition the
assertion branch is unreachable — any remaining panic is one of the
image-validation asserts, not a precondition failure. -/
theorem c9_new_precondition (path : Option (Option Image)) (ts : Option ℕ) :
    (Heightmap.new path ts = .panicked .bothSources ↔ (path.isSome && ts.isSome) = true) ∧
    (Heightmap.new path ts = .panicked .neitherSource ↔ (path.isNone && ts.isNone) = true) ∧
    (path.isSome ≠ ts.isSome → ∀ r, Heightmap.new path ts = .panicked r →
      r = .notSquare ∨ r = .unsupportedSize) := by
  rcases path with _ | (_ | img) <;> rcases ts with _ | s
  · -- neither source: the second debug assertion fires
    refine ⟨?_, ?_, ?_⟩
    · constructor
      · intro h
        exact absurd (show HmResult.panicked .neitherSource = .panicked .bothSources from h)
          (by intro hx; injection hx with hx2; exact PanicReason.noConfusion hx2)
      · intro h
        exact Bool.noConfusion h
    · exact ⟨fun _ => rfl, fun _ => rfl⟩
    · intro hne
      simp at hne
  · -- flat only: success
    refine ⟨?_, ?_, ?_⟩
    · constructor
      · intro h
        exact HmResult.noConfusion (show HmResult.ok _ = .panicked _ from h)
      · intro h
        exact Bool.noConfusion h
    · constructor
      · intro h
        exact HmResult.noConfusion (show HmResult.ok _ = .panicked _ from h)
      · intro h
        exact Bool.noConfusion h
    · intro _ r hr
      exact HmResult.noConfusion (show HmResult.ok _ = .panicked _ from hr)
  · -- failed image load only: the recoverable load error
    refine ⟨?_, ?_, ?_⟩
    · constructor
      · intro h
        exact HmResult.noConfusion (show HmResult.loadError = .panicked _ from h)
      · intro h
        exact Bool.noConfusion h
    · constructor
      · intro h
        exact HmResult.noConfusion (show HmResult.loadError = .panicked _ from h)
      · intro h
        exact Bool.noConfusion h
    · intro _ r hr
      exact HmResult.noConfusion (show HmResult.loadError = .panicked _ from hr)
  · -- failed image load and a flat size: the first debug assertion fires
    refine ⟨⟨fun _ => rfl, fun _ => rfl⟩, ?_, ?_⟩
    · constructor
      · intro h
        exact absurd (show HmResult.panicked .bothSources = .panicked .neitherSource from h)
          (by intro hx; injection hx with hx2; exact PanicReason.noConfusion hx2)
      · intro h
        exact Bool.noConfusion h
    · intro hne
      simp at hne
  · -- decoded image only: validation assertions may fire, never the precondition
    refine ⟨?_, ?_, ?_⟩
    · show Heightmap.new (some (some img)) none = _ ↔ _
      rw [new_some_some_eq]
      constructor
      · intro h
        split at h
        · split at h
          · exact HmResult.noConfusion h
          · exact absurd h (by intro hx; injection hx with hx2; exact PanicReason.noConfusion hx2)
        · exact absurd h (by intro hx; injection hx with hx2; exact PanicReason.noConfusion hx2)
      · intro h
        exact Bool.noConfusion h
    · show Heightmap.new (some (some img)) none = _ ↔ _
      rw [new_some_some_eq]
      constructor
      · intro h
        split at h
        · split at h
          · exact HmResult.noConfusion h
          · exact absurd h (by intro hx; injection hx with hx2; exact PanicReason.noConfusion hx2)
        · exact absurd h (by intro hx; injection hx with hx2; exact PanicReason.noConfusion hx2)
      · intro h
        exact Bool.noConfusion h
    · intro _ r hr
      rw [show Heightmap.new (some (some img)) none =
        Heightmap.new (some (some img)) none from rfl, new_some_some_eq] at hr
      split at hr
      · split at hr
        · exact HmResult.noConfusion hr
        · injection hr with hr2
          exact Or.inr hr2.symm
      · injection hr with hr2
        exact Or.inl hr2.symm
  · -- decoded image and a flat size: the first debug assertion fires
    refine ⟨⟨fun _ => rfl, fun _ => rfl⟩, ?_, ?_⟩
    · constructor
      · intro h
        exact absurd (show HmResult.panicked .bothSources = .panicked .neitherSource from h)
          (by intro hx; injection hx with hx2; exact PanicReason.noConfusion hx2)
      · intro h
        exact Bool.noConfusion h
    · intro hne
      simp at hne

/-- CLAIM C7: `shapeTerrain` passes to the sculpt operation the UV
`(cursor - aabb.min.xz) / terrainSize` with `terrainSize` the AABB's x
extent, together with the brush, terrain size, delta time and raise
flag unchanged; and the sculpt operation's asserted precondition is
exactly that this UV lies in the unit square. -/
theorem c7_shape_terrain_args (t : Terrain) (dt : ℚ) (raise : Bool) (cx cz : ℚ)
    (hc : t.cursor = ⟨.fin cx, .fin cz⟩) :
    (t.shape_terrain dt raise).cursor =
        ⟨.fin ((cx - t.aabb.min.x) / (t.aabb.max.x - t.aabb.min.x)),
         .fin ((cz - t.aabb.min.z) / (t.aabb.max.x - t.aabb.min.x))⟩ ∧
      (t.shape_terrain dt raise).brush = t.brush ∧
      (t.shape_terrain dt raise).terrain_size = t.aabb.max.x - t.aabb.min.x ∧
      (t.shape_terrain dt raise).delta_time = dt ∧
      (t.shape_terrain dt raise).raise = raise ∧
      (drawAsserts (t.shape_terrain dt raise).cursor = true ↔
        0 ≤ (cx - t.aabb.min.x) / (t.aabb.max.x - t.aabb.min.x) ∧
          (cx - t.aabb.min.x) / (t.aabb.max.x - t.aabb.min.x) ≤ 1 ∧
          0 ≤ (cz - t.aabb.min.z) / (t.aabb.max.x - t.aabb.min.x) ∧
          (cz - t.aabb.min.z) / (t.aabb.max.x - t.aabb.min.x) ≤ 1) := by
  obtain ⟨aabb, hm, cur, br, tl, cen, mh, np, ps⟩ := t
  cases hc
  refine ⟨rfl, rfl, rfl, rfl, rfl, ?_⟩
  show drawAsserts ⟨.fin _, .fin _⟩ = true ↔ _
  simp only [drawAsserts, Flt.fle, Bool.and_eq_true, decide_eq_true_eq]
  tauto

/-- CLAIM C7 witness: the instantiation at the concrete terrain `t0`
with cursor (3, 5). -/
theorem c7_witness :
    t0.cursor = ⟨.fin 3, .fin 5⟩ ∧
      ((t0.shape_terrain 2 true).cursor =
          ⟨.fin ((3 - t0.aabb.min.x) / (t0.aabb.max.x - t0.aabb.min.x)),
           .fin ((5 - t0.aabb.min.z) / (t0.aabb.max.x - t0.aabb.min.x))⟩ ∧
        (t0.shape_terrain 2 true).brush = t0.brush ∧
        (t0.shape_terrain 2 true).terrain_size = t0.aabb.max.x - t0.aabb.min.x ∧
        (t0.shape_terrain 2 true).delta_time = 2 ∧
        (t0.shape_terrain 2 true).raise = true ∧
        (drawAsserts (t0.shape_terrain 2 true).cursor = true ↔
          0 ≤ (3 - t0.aabb.min.x) / (t0.aabb.max.x - t0.aabb.min.x) ∧
            (3 - t0.aabb.min.x) / (t0.aabb.max.x - t0.aabb.min.x) ≤ 1 ∧
            0 ≤ (5 - t0.aabb.min.z) / (t0.aabb.max.x - t0.aabb.min.x) ∧
            (5 - t0.aabb.min.z) / (t0.aabb.max.x - t0.aabb.min.x) ≤ 1)) :=
  ⟨rfl, c7_shape_terrain_args t0 2 true 3 5 rfl⟩

/-- A zero brush contribution leaves a 16-bit texel unchanged: the
normalized height round-trips through the blend and quantization. -/
theorem sculptTexel_zero (old : ℕ) (hold : old < 65536) (raise : Bool) :
    sculptTexel old 0 raise = old := by
  have h0 : (0 : ℚ) ≤ (old : ℚ) / 65535 := by positivity
  have h1 : (old : ℚ) / 65535 ≤ 1 := by
    rw [div_le_one (by norm_num)]
    exact_mod_cast Nat.le_of_lt_succ hold
  have hmm : min 1 (max 0 ((old : ℚ) / 65535)) = (old : ℚ) / 65535 := by
    rw [max_eq_right h0, min_eq_right h1]
  have hcancel : (old : ℚ) / 65535 * 65535 = (old : ℚ) :=
    div_mul_cancel₀ _ (by norm_num)
  have hfloor : (⌊(old : ℚ) + 1 / 2⌋ : ℤ) = (old : ℤ) := by
    rw [Int.floor_eq_iff]
    constructor
    · push_cast
      linarith
    · push_cast
      linarith
  cases raise with
  | true =>
    show (⌊min 1 (max 0 ((old : ℚ) / 65535 + 0)) * 65535 + 1 / 2⌋).toNat = old
    rw [add_zero, hmm, hcancel, hfloor]
    exact Int.toNat_natCast old
  | false =>
    show (⌊min 1 (max 0 ((old : ℚ) / 65535 - 0)) * 65535 + 1 / 2⌋).toNat = old
    rw [sub_zero, hmm, hcancel, hfloor]
    exact Int.toNat_natCast old

/-- An indexed map whose function fixes every element of the list is
the identity. -/
theorem mapWithIndex_fixed (f : ℕ → ℕ → ℕ) :
    ∀ (l : List ℕ) (n : ℕ), (∀ i a, a ∈ l → f i a = a) → mapWithIndex f n l = l := by
  intro l
  induction l with
  | nil => intro n _; rfl
  | cons a as ih =>
    intro n hf
    show f n a :: mapWithIndex f (n + 1) as = a :: as
    rw [hf n a (List.mem_cons_self a as), ih (n + 1) (fun i b hb => hf i b (List.mem_cons_of_mem a hb))]

/-- CLAIM C8: a sculpt pass with `deltaTime = 0` leaves every texel of
the height field unchanged, for every cursor, brush, terrain size,
brush-stamp sampling and raise flag. -/
theorem c8_sculpt_zero_dt (h : Heightmap) (cursor : Vec2F) (brush : Brush) (ts : ℚ)
    (stamp : Vec2F → ℚ → ℕ → ℚ) (raise : Bool)
    (hb : ∀ p ∈ h.pixels, p < 65536) :
    h.draw_on_heightmap cursor brush ts stamp 0 raise = h.pixels := by
  unfold Heightmap.draw_on_heightmap
  apply mapWithIndex_fixed
  intro i a ha
  rw [mul_zero]
  exact sculptTexel_zero a (hb a ha) raise

/-- CLAIM C8 witness: the instantiation at the concrete height field
`h4` with an arbitrary nonzero stamp. -/
theorem c8_witness :
    (∀ p ∈ h4.pixels, p < 65536) ∧
      h4.draw_on_heightmap ⟨.fin 0, .fin 0⟩ ⟨100⟩ 1024 (fun _ _ _ => 1) 0 true = h4.pixels :=
  ⟨by decide, c8_sculpt_zero_dt h4 ⟨.fin 0, .fin 0⟩ ⟨100⟩ 1024 (fun _ _ _ => 1) true (by decide)⟩

/-- CLAIM C9 witness: a flat-only call (exactly one source) never hits
the precondition assertions. -/
theorem c9_witness :
    ((none : Option (Option Image)).isSome ≠ (some 1024 : Option ℕ).isSome) ∧
      (∀ r, Heightmap.new none (some 1024) = .panicked r →
        r = .notSquare ∨ r = .unsupportedSize) :=
  ⟨by simp, (c9_new_precondition none (some 1024)).2.2 (by simp)⟩

/-- The meet of intervals shrinks from the left operand. -/
theorem interMeet_bound_left (b : Option (ℚ × ℚ)) (la ha l h : ℚ)
    (hm : interMeet (some (la, ha)) b = some (l, h)) : la ≤ l ∧ h ≤ ha := by
  cases b with
  | none =>
    injection hm with hm2
    injection hm2 with h1 h2
    exact ⟨le_of_eq h1, le_of_eq h2.symm⟩
  | some p =>
    obtain ⟨lb, hb⟩ := p
    injection hm with hm2
    injection hm2 with h1 h2
    rw [← h1, ← h2]
    exact ⟨le_max_left la lb, min_le_left ha hb⟩

/-- The meet of intervals shrinks from the right operand. -/
theorem interMeet_bound_right (a : Option (ℚ × ℚ)) (lb hb l h : ℚ)
    (hm : interMeet a (some (lb, hb)) = some (l, h)) : lb ≤ l ∧ h ≤ hb := by
  cases a with
  | none =>
    injection hm with hm2
    injection hm2 with h1 h2
    exact ⟨le_of_eq h1, le_of_eq h2.symm⟩
  | some p =>
    obtain ⟨la, ha⟩ := p
    injection hm with hm2
    injection hm2 with h1 h2
    rw [← h1, ← h2]
    exact ⟨le_max_right la lb, min_le_right ha hb⟩

/-- Geometric content of the slab method: when the box has a nonempty
y extent, the point at the far hit parameter never lies below the box's
bottom plane. -/
theorem hits_far_not_below (r : Ray) (b : AABB) (hit : RayHit)
    (hy : b.min.y ≤ b.max.y) (hh : r.hits_aabb b = some hit) :
    b.min.y ≤ (r.get_point_at hit.t_max).y := by
  unfold Ray.hits_aabb at hh
  split at hh
  · exact Option.noConfusion hh
  next ix hix =>
    split at hh
    · exact Option.noConfusion hh
    next iy hiy =>
      split at hh
      · exact Option.noConfusion hh
      next iz hiz =>
        split at hh
        · exact Option.noConfusion hh
        next tl th hmeet =>
          split at hh
          case isFalse => exact Option.noConfusion hh
          case isTrue hcond =>
            obtain ⟨rfl⟩ : hit = ⟨tl, th⟩ := by
              injection hh with hh2
              exact hh2.symm
            show b.min.y ≤ r.origin.y + th * r.direction.y
            unfold axisSlab at hiy
            split at hiy
            case isTrue hd =>
              split at hiy
              case isTrue hin =>
                rw [hd, mul_zero, add_zero]
                exact hin.1
              case isFalse => exact Option.noConfusion hiy
            case isFalse hd =>
              obtain rfl : iy =
                  some (min ((b.min.y - r.origin.y) / r.direction.y)
                          ((b.max.y - r.origin.y) / r.direction.y),
                        max ((b.min.y - r.origin.y) / r.direction.y)
                          ((b.max.y - r.origin.y) / r.direction.y)) := by
                injection hiy with hiy2
                exact hiy2.symm
              rcases hmid : interMeet ix
                  (some (min ((b.min.y - r.origin.y) / r.direction.y)
                          ((b.max.y - r.origin.y) / r.direction.y),
                        max ((b.min.y - r.origin.y) / r.direction.y)
                          ((b.max.y - r.origin.y) / r.direction.y)))
                  with _ | ⟨l2, h2⟩
              · cases ix with
                | none => exact Option.noConfusion hmid
                | some p =>
                  obtain ⟨la, ha⟩ := p
                  exact Option.noConfusion hmid
              · rw [hmid] at hmeet
                have hb1 := interMeet_bound_right ix _ _ l2 h2 hmid
                have hb2 := interMeet_bound_left iz l2 h2 tl th hmeet
                have hlow :
                    min ((b.min.y - r.origin.y) / r.direction.y)
                      ((b.max.y - r.origin.y) / r.direction.y) ≤ th :=
                  le_trans (le_trans hb1.1 hb2.1) hcond.1
                have hhigh :
                    th ≤ max ((b.min.y - r.origin.y) / r.direction.y)
                      ((b.max.y - r.origin.y) / r.direction.y) :=
                  le_trans hb2.2 hb1.2
                have ht1 : (b.min.y - r.origin.y) / r.direction.y * r.direction.y =
                    b.min.y - r.origin.y := div_mul_cancel₀ _ hd
                have ht2 : (b.max.y - r.origin.y) / r.direction.y * r.direction.y =
                    b.max.y - r.origin.y := div_mul_cancel₀ _ hd
                rcases lt_or_gt_of_ne hd with hneg | hpos
                · rcases le_total ((b.min.y - r.origin.y) / r.direction.y)
                      ((b.max.y - r.origin.y) / r.direction.y) with h12 | h21
                  · have hth : th ≤ (b.max.y - r.origin.y) / r.direction.y :=
                      (max_eq_right h12) ▸ hhigh
                    have hm2 := mul_le_mul_of_nonpos_right hth hneg.le
                    rw [ht2] at hm2
                    linarith
                  · have hth : th ≤ (b.min.y - r.origin.y) / r.direction.y :=
                      (max_eq_left h21) ▸ hhigh
                    have hm2 := mul_le_mul_of_nonpos_right hth hneg.le
                    rw [ht1] at hm2
                    linarith
                · rcases le_total ((b.min.y - r.origin.y) / r.direction.y)
                      ((b.max.y - r.origin.y) / r.direction.y) with h12 | h21
                  · have hth : (b.min.y - r.origin.y) / r.direction.y ≤ th :=
                      (min_eq_left h12) ▸ hlow
                    have hm2 := mul_le_mul_of_nonneg_right hth hpos.le
                    rw [ht1] at hm2
                    linarith
                  · have hth : (b.max.y - r.origin.y) / r.direction.y ≤ th :=
                      (min_eq_right h21) ▸ hlow
                    have hm2 := mul_le_mul_of_nonneg_right hth hpos.le
                    rw [ht2] at hm2
                    linarith

/-- CLAIM C1: `intersectWithRay` computes the ray/AABB intersection and
returns the ray evaluated at the far parameter exactly when that
point's height is within 0.001 of the AABB's minimum y (for a
nondegenerate box the far-hit point never lies below the bottom plane,
so the code's one-sided `point.y - min.y <= 0.001` test is the same as
the two-sided band); in particular a ray that misses the AABB, or whose
far-hit point lies more than 0.001 above the bottom, yields no hit. -/
theorem c1_intersect_far_floor_iff (t : Terrain) (ray : Ray) (p : Vec3)
    (hy : t.aabb.min.y ≤ t.aabb.max.y) :
    t.intersect_with_ray ray = some p ↔
      ∃ hit, ray.hits_aabb t.aabb = some hit ∧ p = ray.get_point_at hit.t_max ∧
        |p.y - t.aabb.min.y| ≤ 1 / 1000 := by
  constructor
  · intro hp
    unfold Terrain.intersect_with_ray at hp
    split at hp
    · exact Option.noConfusion hp
    next hit hhit =>
      change (if (ray.get_point_at hit.t_max).y - t.aabb.min.y > 1 / 1000 then none
          else some (ray.get_point_at hit.t_max)) = some p at hp
      split at hp
      · exact Option.noConfusion hp
      next hcond =>
        obtain rfl : ray.get_point_at hit.t_max = p := by
          injection hp
        have hlb : t.aabb.min.y ≤ (ray.get_point_at hit.t_max).y :=
          hits_far_not_below ray t.aabb hit hy hhit
        refine ⟨hit, hhit, rfl, ?_⟩
        rw [abs_le]
        push_neg at hcond
        constructor
        · linarith
        · linarith
  · rintro ⟨hit, hhit, rfl, habs⟩
    unfold Terrain.intersect_with_ray
    rw [hhit]
    show (if (ray.get_point_at hit.t_max).y - t.aabb.min.y > 1 / 1000 then none
          else some (ray.get_point_at hit.t_max)) = _
    rw [if_neg]
    push_neg
    rw [abs_le] at habs
    linarith [habs.2]

/-- CLAIM C1 witness: instantiation at the concrete terrain `t0`, the
downward ray `rDown` and the origin point. -/
theorem c1_witness :
    t0.aabb.min.y ≤ t0.aabb.max.y ∧
      (t0.intersect_with_ray rDown = some ⟨0, 0, 0⟩ ↔
        ∃ hit, rDown.hits_aabb t0.aabb = some hit ∧
          (⟨0, 0, 0⟩ : Vec3) = rDown.get_point_at hit.t_max ∧
          |(⟨0, 0, 0⟩ : Vec3).y - t0.aabb.min.y| ≤ 1 / 1000) :=
  ⟨by decide, c1_intersect_far_floor_iff t0 rDown ⟨0, 0, 0⟩ (by decide)⟩

/-- CLAIM C2: `moveCursor` returns true exactly when `intersectWithRay`
hits; on a hit the stored cursor is the hit point's xz clamped into the
AABB's xz bounds (hence in bounds, given a nondegenerate box); on a
miss it returns false and the resulting state is `hideCursor`'s, whose
cursor is the positive-infinity sentinel on both axes. -/
theorem c2_move_cursor_spec (t : Terrain) (ray : Ray)
    (hx : t.aabb.min.x ≤ t.aabb.max.x) (hz : t.aabb.min.z ≤ t.aabb.max.z) :
    ((t.move_cursor ray).1 = true ↔ ∃ p, t.intersect_with_ray ray = some p) ∧
      (∀ p, t.intersect_with_ray ray = some p →
        (t.move_cursor ray).2.cursor =
            ⟨.fin (clampF p.x t.aabb.min.x t.aabb.max.x),
             .fin (clampF p.z t.aabb.min.z t.aabb.max.z)⟩ ∧
          t.aabb.min.x ≤ clampF p.x t.aabb.min.x t.aabb.max.x ∧
          clampF p.x t.aabb.min.x t.aabb.max.x ≤ t.aabb.max.x ∧
          t.aabb.min.z ≤ clampF p.z t.aabb.min.z t.aabb.max.z ∧
          clampF p.z t.aabb.min.z t.aabb.max.z ≤ t.aabb.max.z) ∧
      (t.intersect_with_ray ray = none →
        (t.move_cursor ray).1 = false ∧ (t.move_cursor ray).2 = t.hide_cursor) ∧
      (t.hide_cursor).cursor = vec2_infinity ∧ vec2_infinity = ⟨.inf, .inf⟩ := by
  refine ⟨?_, ?_, ?_, rfl, rfl⟩
  · cases hint : t.intersect_with_ray ray with
    | none =>
      unfold Terrain.move_cursor
      rw [hint]
      constructor
      · intro hfalse
        exact Bool.noConfusion hfalse
      · rintro ⟨p, hp⟩
        exact Option.noConfusion hp
    | some p =>
      unfold Terrain.move_cursor
      rw [hint]
      exact iff_of_true rfl ⟨p, rfl⟩
  · intro p hp
    unfold Terrain.move_cursor
    rw [hp]
    refine ⟨rfl, ?_, ?_, ?_, ?_⟩
    · exact le_min (le_max_right p.x t.aabb.min.x) hx
    · exact min_le_right _ _
    · exact le_min (le_max_right p.z t.aabb.min.z) hz
    · exact min_le_right _ _
  · intro hnone
    unfold Terrain.move_cursor
    rw [hnone]
    exact ⟨rfl, rfl⟩

/-- CLAIM C2 witness: instantiation at the concrete terrain `t0` and
the downward ray `rDown`. -/
theorem c2_witness :
    (t0.aabb.min.x ≤ t0.aabb.max.x ∧ t0.aabb.min.z ≤ t0.aabb.max.z) ∧
      (((t0.move_cursor rDown).1 = true ↔ ∃ p, t0.intersect_with_ray rDown = some p) ∧
        (∀ p, t0.intersect_with_ray rDown = some p →
          (t0.move_cursor rDown).2.cursor =
              ⟨.fin (clampF p.x t0.aabb.min.x t0.aabb.max.x),
               .fin (clampF p.z t0.aabb.min.z t0.aabb.max.z)⟩ ∧
            t0.aabb.min.x ≤ clampF p.x t0.aabb.min.x t0.aabb.max.x ∧
            clampF p.x t0.aabb.min.x t0.aabb.max.x ≤ t0.aabb.max.x ∧
            t0.aabb.min.z ≤ clampF p.z t0.aabb.min.z t0.aabb.max.z ∧
            clampF p.z t0.aabb.min.z t0.aabb.max.z ≤ t0.aabb.max.z) ∧
        (t0.intersect_with_ray rDown = none →
          (t0.move_cursor rDown).1 = false ∧ (t0.move_cursor rDown).2 = t0.hide_cursor) ∧
        (t0.hide_cursor).cursor = vec2_infinity ∧ vec2_infinity = ⟨.inf, .inf⟩) :=
  ⟨⟨by decide, by decide⟩, c2_move_cursor_spec t0 rDown (by decide) (by decide)⟩

/-- CLAIM C10: every successfully constructed terrain has max height
200, a 64×64 patch grid with patch size 16, AABB from (-512, 0, -512)
to (512, 200, 512), `size()` 1024, origin center; and under the
start-flat flag the height field side is 1024 regardless of the other
arguments. -/
theorem c10_terrain_params (center : Vec2) (start_flat : Bool) (loaded : Option Image)
    (t : Terrain) (hok : Terrain.new center start_flat loaded = .ok t) :
    t.max_height = 200 ∧ t.num_patches = 64 ∧ t.patch_size = 16 ∧
      t.aabb = ⟨⟨-512, 0, -512⟩, ⟨512, 200, 512⟩⟩ ∧ t.size = 1024 ∧ t.center = ⟨0, 0⟩ ∧
      (start_flat = true → t.heightmap.texture_size = 1024) := by
  unfold Terrain.new at hok
  split at hok
  case isFalse => exact TerrainResult.noConfusion hok
  case isTrue hcen =>
    split at hok
    case h_2 => exact TerrainResult.noConfusion hok
    case h_3 => exact TerrainResult.noConfusion hok
    case h_1 hm hhm =>
      obtain rfl : terrainInit center hm = t := by
        injection hok
      have haabb : (terrainInit center hm).aabb = ⟨⟨-512, 0, -512⟩, ⟨512, 200, 512⟩⟩ := by
        show AABB.mk ⟨-(16 * ((64 : ℤ) : ℚ) / 2), 0, -(16 * ((64 : ℤ) : ℚ) / 2)⟩
            ⟨16 * ((64 : ℤ) : ℚ) / 2, 200, 16 * ((64 : ℤ) : ℚ) / 2⟩ = _
        norm_num
      refine ⟨rfl, rfl, rfl, haabb, ?_, hcen, ?_⟩
      · show (terrainInit center hm).aabb.max.x - (terrainInit center hm).aabb.min.x = 1024
        rw [haabb]
        norm_num
      · intro hsf
        rw [hsf] at hhm
        have hflat : Heightmap.flat 1024 =
            .ok ⟨1024, List.replicate (1024 * 1024) 0, by rw [List.length_replicate]⟩ := rfl
        rw [hflat] at hhm
        obtain rfl : (⟨1024, List.replicate (1024 * 1024) 0, by rw [List.length_replicate]⟩ :
            Heightmap) = hm := by
          injection hhm
        rfl

/-- The concrete terrain `Terrain::new` yields for the origin center
and the start-flat flag. -/
def tFlat : Terrain :=
  ⟨⟨⟨-(16 * ((64 : ℤ) : ℚ) / 2), 0, -(16 * ((64 : ℤ) : ℚ) / 2)⟩,
    ⟨16 * ((64 : ℤ) : ℚ) / 2, 200, 16 * ((64 : ℤ) : ℚ) / 2⟩⟩,
   ⟨1024, List.replicate (1024 * 1024) 0, by rw [List.length_replicate]⟩,
   vec2_infinity, ⟨100⟩, 11, ⟨0, 0⟩, 200, 64, 16⟩

/-- CLAIM C10 witness: the start-flat construction at the origin center
succeeds and instantiates the parameter bundle. -/
theorem c10_witness :
    Terrain.new ⟨0, 0⟩ true none = .ok tFlat ∧
      (tFlat.max_height = 200 ∧ tFlat.num_patches = 64 ∧ tFlat.patch_size = 16 ∧
        tFlat.aabb = ⟨⟨-512, 0, -512⟩, ⟨512, 200, 512⟩⟩ ∧ tFlat.size = 1024 ∧
        tFlat.center = ⟨0, 0⟩ ∧
        (true = true → tFlat.heightmap.texture_size = 1024)) :=
  ⟨rfl, c10_terrain_params ⟨0, 0⟩ true none tFlat rfl⟩

end LegoGame
